import Mathlib

/-!
Shallow embedding of the core behavior of src/script.js: the contact-form
validation and submission pipeline and the testimonial slider, together with
theorems settling the specification claims about them.

Machine model notes:
- JavaScript strings are modelled as Lean String (all inputs of interest are
  ASCII, where the two agree character by character).
- JavaScript numbers appearing as slide indices are modelled as Int, with
  Option Int used where NaN can arise (the remainder by zero); NaN compares
  false under every ordering comparison, which the embedding reproduces by
  pattern matching on the none case.
-/

namespace Script

/-- The apostrophe character, used inside string constants of the source. -/
def apos : String := String.singleton (Char.ofNat 39)

/-- Models the JavaScript String.prototype.trim call used by validateField:
removes whitespace from both ends of the string. -/
def jsTrim (s : String) : String :=
  String.mk (((s.toList.dropWhile Char.isWhitespace).reverse.dropWhile
    Char.isWhitespace).reverse)

/-- Models the regex test /[0-9]/.test(value) from the name-field check. -/
def containsDigit (s : String) : Bool :=
  s.toList.any Char.isDigit

/-- Models Utils.sanitizeHTML: writing a string to a detached element via
textContent and reading back innerHTML, which escapes the markup-significant
characters ampersand, less-than and greater-than. -/
def escapeChar (c : Char) : String :=
  if c = '&' then "&amp;"
  else if c = '<' then "&lt;"
  else if c = '>' then "&gt;"
  else String.singleton c

/-- Models Utils.sanitizeHTML applied to a whole string. -/
def sanitizeHTML (s : String) : String :=
  String.join (s.toList.map escapeChar)

/-- ASCII letter or digit, the class a-zA-Z0-9 of the email regex. -/
def isAlnumCh (c : Char) : Bool :=
  c.isAlpha || c.isDigit

/-- Character class of the local part of the email regex in validateField:
a-zA-Z0-9 together with the listed special characters (dot, bang, hash,
dollar, percent, ampersand, apostrophe, star, plus, slash, equals, question
mark, caret, underscore, backquote, left brace, pipe, right brace, tilde,
hyphen). Four of these are written by ASCII code point rather than as
character literals: 39 apostrophe, 96 backquote, 123 left brace, 125 right
brace. -/
def isLocalChar (c : Char) : Bool :=
  isAlnumCh c ||
  c = '.' || c = '!' || c = '#' || c = '$' || c = '%' || c = '&' ||
  c = Char.ofNat 39 || c = '*' || c = '+' || c = '/' || c = '=' ||
  c = '?' || c = '^' || c = '_' || c = Char.ofNat 96 ||
  c = Char.ofNat 123 || c = '|' || c = Char.ofNat 125 || c = '~' || c = '-'

/-- Character class a-zA-Z0-9- of the interior of a domain label. -/
def isLabelChar (c : Char) : Bool :=
  isAlnumCh c || c = '-'

/-- One domain label of the email regex: the pattern is one alphanumeric
character followed by an optional run of at most 61 label characters ending
in an alphanumeric character; equivalently, a nonempty string of length at
most 63 over letters, digits and hyphens whose first and last characters are
alphanumeric. -/
def labelOk (l : List Char) : Bool :=
  !l.isEmpty && l.length ≤ 63 && l.all isLabelChar &&
  isAlnumCh (l.headD '-') && isAlnumCh (l.getLastD '-')

/-- The domain of the email regex: a label followed by one or more groups of
a dot and a label. Since labels never contain a dot, a string matches exactly
when splitting on dots yields at least two parts, each a valid label. -/
def domainOk (d : List Char) : Bool :=
  (d.splitOn '.').length ≥ 2 && (d.splitOn '.').all labelOk

/-- Models the anchored email regex of validateField. Neither character class
contains the at-sign, so a string matches exactly when it splits on the
at-sign into exactly two parts: a nonempty local part over the local class,
and a valid domain. -/
def emailRegexTest (s : String) : Bool :=
  match s.toList.splitOn '@' with
  | [loc, dom] => (!loc.isEmpty && loc.all isLocalChar) && domainOk dom
  | _ => false

/-- One form control as validateField sees it: its name attribute, its type
attribute, whether it carries the required attribute, and its current value. -/
structure Field where
  name : String
  type : String
  required : Bool
  value : String
deriving DecidableEq, Repr

/-- Models validateField from src/script.js. The source trims the value,
then runs three independent checks that each assign to the pair of mutable
locals isValid and errorMessage, so a later firing check overwrites the
message of an earlier one. The returned pair is the final value of those
locals; the message is displayed exactly when the flag is false. -/
def validateField (field : Field) : Bool × String :=
  let value := jsTrim field.value
  let st : Bool × String := (true, "")
  let st :=
    if field.required && value == "" then (false, "This field is required")
    else st
  let st :=
    if field.type == "email" && value != "" then
      if !emailRegexTest value then
        (false, "Please enter a valid email address")
      else st
    else st
  let st :=
    if field.type == "text" && field.name == "name" && value != "" then
      let st :=
        if value.length < 2 then (false, "Name must be at least 2 characters")
        else st
      if containsDigit value then (false, "Name should not contain numbers")
      else st
    else st
  st

/-- Models validateForm from src/script.js: it queries only the controls
carrying the required attribute, runs validateField on each of them, and
returns false exactly when some required control fails. -/
def validateForm (fields : List Field) : Bool :=
  (fields.filter fun f => f.required).foldl
    (fun acc f => acc && (validateField f).fst) true

/-- Observable outcome of the synchronous part of one submission attempt
(the submit listener of initializeContactForm together with the entry of
submitContactForm, up to and including the decision whether fetch is called):
the notification shown during this part if any (message and severity), the
JSON payload handed to fetch if the attempt was dispatched, whether the form
was reset during this part, and the value of formSubmitTracker.lastSubmit
after this part. -/
structure SubmitOutcome where
  notification : Option (String × String)
  fetched : Option (List (String × String))
  reset : Bool
  lastSubmit : Nat
deriving DecidableEq, Repr

/-- Models the synchronous part of submitContactForm from src/script.js:
the rate-limit check against formSubmitTracker, the update of lastSubmit when
the check passes, and the fetch dispatch. Timestamps are Date.now values in
milliseconds; the comparison is the JavaScript subtraction, taken over Int. -/
def submitContactForm (formData : List (String × String))
    (tracker now minDelay : Nat) : SubmitOutcome :=
  if (now : Int) - (tracker : Int) < (minDelay : Int) then
    { notification := some ("Please wait before submitting again", "error"),
      fetched := none, reset := false, lastSubmit := tracker }
  else
    { notification := none, fetched := some formData,
      reset := false, lastSubmit := now }

/-- Models the honeypot test of the submit listener: querySelector returns
the first control whose name attribute is website, and the condition
honeypot AND honeypot.value holds exactly when such a control exists and its
value is a nonempty string. -/
def honeypotFilled (fields : List Field) : Bool :=
  match fields.find? (fun f => f.name == "website") with
  | some hp => hp.value != ""
  | none => false

/-- Models one step of the payload-building loop: assigning
formObject:[key] = v keeps the position of an existing key and overwrites its
value, and otherwise appends the new key at the end, as JavaScript object
assignment does. -/
def objInsert (obj : List (String × String)) (k v : String) :
    List (String × String) :=
  if obj.any (fun p => p.fst == k) then
    obj.map (fun p => if p.fst == k then (k, v) else p)
  else obj ++ [(k, v)]

/-- One iteration of the payload-building loop of the submit listener: a
form-data entry whose key is not website is trimmed, sanitized and assigned
into the object; an entry whose key is website is skipped. -/
def payloadStep (obj : List (String × String)) (f : Field) :
    List (String × String) :=
  if f.name != "website" then
    objInsert obj f.name (sanitizeHTML (jsTrim f.value))
  else obj

/-- Models the payload-building loop of the submit listener over all
form-data entries, starting from the empty object; the result is the object
sent as JSON. -/
def buildPayload (fields : List Field) : List (String × String) :=
  fields.foldl payloadStep []

/-- Models the submit listener of initializeContactForm after preventDefault:
the honeypot check with its fake success notification and form reset, then
full-form validation, then the call into submitContactForm. -/
def handleSubmit (fields : List Field) (tracker now minDelay : Nat) :
    SubmitOutcome :=
  if honeypotFilled fields then
    { notification := some ("Message sent successfully!", "success"),
      fetched := none, reset := true, lastSubmit := tracker }
  else if validateForm fields then
    submitContactForm (buildPayload fields) tracker now minDelay
  else
    { notification := none, fetched := none, reset := false,
      lastSubmit := tracker }

/-- Outcome of the dispatched fetch as the promise chain of submitContactForm
distinguishes it: an ok response, a response whose ok flag is false (the then
handler throws), or a network-level rejection (the then handler never runs). -/
inductive FetchOutcome where
  | ok
  | httpError
  | networkFailure
deriving DecidableEq, Repr

/-- The submit control's observable state: disabled flag, text content and
opacity style. -/
structure ButtonState where
  disabled : Bool
  label : String
  opacity : String
deriving DecidableEq, Repr

/-- The success notification text of the then handler, containing an
apostrophe. -/
def successMsg : String :=
  "Thank you for your message! We" ++ apos ++ "ll get back to you soon."

/-- The error notification text of the catch handler. -/
def failureMsg : String :=
  "Sorry, there was an error sending your message. Please try again."

/-- Observable result of resolving one dispatched attempt: whether the form
was reset, the notification shown, the submit control's state and the list of
residual field-error displays after the finally block. -/
structure ResolveResult where
  reset : Bool
  notification : String × String
  button : ButtonState
  fieldErrors : List String
deriving DecidableEq, Repr

/-- Models the resolution of the fetch promise chain in submitContactForm.
The match mirrors the then and catch handlers: an ok response resets the form
and shows the success notification; a non-ok response makes the then handler
throw, and that error as well as a network rejection lands in the catch
handler, which shows the error notification. The record fields after the
match mirror the finally block, which runs on every path: it re-enables the
submit control, restores its original label and opacity, and removes every
residual field-error element. -/
def resolveSubmit (originalText : String) (_residualErrors : List String)
    (o : FetchOutcome) : ResolveResult :=
  let afterThenCatch : Bool × (String × String) :=
    match o with
    | FetchOutcome.ok => (true, (successMsg, "success"))
    | FetchOutcome.httpError => (false, (failureMsg, "error"))
    | FetchOutcome.networkFailure => (false, (failureMsg, "error"))
  { reset := afterThenCatch.fst,
    notification := afterThenCatch.snd,
    button := { disabled := false, label := originalText, opacity := "1" },
    fieldErrors := [] }

/-- State of the testimonial slider: the active marking of each slide, the
active marking of each dot, and this.currentIndex. The number of slides N is
the length of the first list. -/
structure SliderState where
  testimonials : List Bool
  dots : List Bool
  currentIndex : Int
deriving DecidableEq, Repr

/-- Models the JavaScript remainder operator on integer operands: remainder
truncated toward zero, and NaN (here none) when the divisor is zero. -/
def jsMod (a b : Int) : Option Int :=
  if b = 0 then none else some (a.tmod b)

/-- The slider state after the two forEach loops of show have removed the
active class from every slide and dot. -/
def clearedActive (s : SliderState) : SliderState :=
  { s with
    testimonials := s.testimonials.map fun _ => false,
    dots := s.dots.map fun _ => false }

/-- Models TestimonialSlider.show. A none index models NaN: both guard
comparisons are false for NaN, so the early return is not taken, the two
forEach loops clear every active class, and the element lookup
testimonials:[NaN] yields undefined, whose classList access throws; the error
value carries the state at the throw. An integer index outside the range is
caught by the guard and returns the state unchanged. Otherwise every active
class is cleared, the slide and (when present, via the dots guard that
List.set reproduces by ignoring out-of-range positions) the dot at the index
are activated, and currentIndex is set. This definition is the state produced
by the successful path of show at index i: every active class cleared, the
slide at i activated, the dot at i activated when such a dot exists
(List.set ignores an out-of-range position, matching the dots guard), and
currentIndex set to i. -/
def activatedAt (s : SliderState) (i : Int) : SliderState :=
  { testimonials := (s.testimonials.map fun _ => false).set i.toNat true,
    dots := (s.dots.map fun _ => false).set i.toNat true,
    currentIndex := i }

/-- Models TestimonialSlider.show on its index argument: a none index models
NaN as described in the comment of activatedAt; the error value carries the
state at the throw. An integer index outside the range is caught by the guard
and returns the state unchanged; an in-range index produces the activated
state. -/
def showSlide (s : SliderState) (index : Option Int) :
    Except SliderState SliderState :=
  match index with
  | none => Except.error (clearedActive s)
  | some i =>
    if i < 0 ∨ (s.testimonials.length : Int) ≤ i then Except.ok s
    else Except.ok (activatedAt s i)

/-- Models TestimonialSlider.next: show at (currentIndex + 1) % N. -/
def next (s : SliderState) : Except SliderState SliderState :=
  showSlide s (jsMod (s.currentIndex + 1) (s.testimonials.length : Int))

/-- Models TestimonialSlider.prev: show at (currentIndex - 1 + N) % N. -/
def prev (s : SliderState) : Except SliderState SliderState :=
  showSlide s (jsMod (s.currentIndex - 1 + (s.testimonials.length : Int))
    (s.testimonials.length : Int))

/-- Applies next the given number of times, stopping at the first error. -/
def nextN : Nat → SliderState → Except SliderState SliderState
  | 0, s => Except.ok s
  | k + 1, s =>
    match next s with
    | Except.ok s' => nextN k s'
    | Except.error e => Except.error e

/-- The currentIndex of a successful result, none on an error. -/
def okIndex : Except SliderState SliderState → Option Int
  | Except.ok s => some s.currentIndex
  | Except.error _ => none

/-- Sequencing of two slider operations: run the second on the state produced
by the first unless the first threw. -/
def andThen (r : Except SliderState SliderState)
    (f : SliderState → Except SliderState SliderState) :
    Except SliderState SliderState :=
  match r with
  | Except.ok s => f s
  | Except.error e => Except.error e

/-- The autoplay half of the slider state: this.interval, which is null or
the id of the scheduled repeating timer. -/
structure AutoplayState where
  interval : Option Nat
deriving DecidableEq, Repr

/-- The ambient timer service: the next fresh timer id that setInterval will
hand out, and the ids of the repeating timers currently scheduled. -/
structure TimerWorld where
  nextId : Nat
  active : List Nat
deriving DecidableEq, Repr

/-- Models TestimonialSlider.stopAutoplay: when this.interval is non-null,
clearInterval cancels that timer and this.interval is set to null; otherwise
nothing happens. -/
def stopAutoplay : AutoplayState × TimerWorld → AutoplayState × TimerWorld
  | (s, w) =>
    match s.interval with
    | some id =>
      ({ interval := none }, { nextId := w.nextId, active := w.active.erase id })
    | none => (s, w)

/-- Models TestimonialSlider.startAutoplay: it first calls stopAutoplay, then
setInterval schedules a fresh repeating timer whose id is stored in
this.interval. -/
def startAutoplay (sw : AutoplayState × TimerWorld) :
    AutoplayState × TimerWorld :=
  let w := (stopAutoplay sw).snd
  ({ interval := some w.nextId },
   { nextId := w.nextId + 1, active := w.nextId :: w.active })

/-- Invariant tying the slider's interval field to the timer service: every
scheduled id is older than the next fresh id, and the scheduled autoplay
timers are exactly the one this.interval points to (so there is at most
one). -/
def timerInv (sw : AutoplayState × TimerWorld) : Prop :=
  (∀ id ∈ sw.snd.active, id < sw.snd.nextId) ∧
  sw.snd.active = (match sw.fst.interval with
    | some id => [id]
    | none => [])

/-! Helper lemmas. -/

/-- Folding the conjunction accumulator of validateForm over a list equals
the accumulator conjoined with the conjunction over the list. -/
lemma foldl_and_eq (p : Field → Bool) (b : Bool) (l : List Field) :
    l.foldl (fun acc f => acc && p f) b = (b && l.all p) := by
  induction l generalizing b with
  | nil => simp
  | cons x xs ih => simp [ih, Bool.and_assoc]

/-- validateForm is the conjunction of validateField over exactly the
required fields. -/
lemma validateForm_eq_all (fields : List Field) :
    validateForm fields =
      (fields.filter fun f => f.required).all fun f => (validateField f).fst := by
  rw [validateForm, foldl_and_eq]
  simp

/-- objInsert never introduces the key website when the inserted key is not
website. -/
lemma objInsert_no_website (obj : List (String × String)) (k v : String)
    (hk : k ≠ "website") (h : "website" ∉ obj.map Prod.fst) :
    "website" ∉ (objInsert obj k v).map Prod.fst := by
  unfold objInsert
  split
  · intro hmem
    rcases List.mem_map.mp hmem with ⟨q, hq, hqfst⟩
    rcases List.mem_map.mp hq with ⟨p, hp, hpq⟩
    subst hpq
    by_cases hc : p.fst == k
    · rw [if_pos hc] at hqfst
      exact hk hqfst
    · rw [if_neg hc] at hqfst
      exact h (List.mem_map.mpr ⟨p, hp, hqfst⟩)
  · intro hmem
    rw [List.map_append, List.mem_append] at hmem
    rcases hmem with hmem | hmem
    · exact h hmem
    · simp at hmem
      exact hk hmem.symm

/-- The payload-building fold never introduces the key website. -/
lemma foldl_payload_no_website (l : List Field) :
    ∀ obj : List (String × String), "website" ∉ obj.map Prod.fst →
      "website" ∉ (l.foldl payloadStep obj).map Prod.fst := by
  induction l with
  | nil => intro obj h; exact h
  | cons f fs ih =>
    intro obj h
    rw [List.foldl_cons]
    refine ih (payloadStep obj f) ?_
    unfold payloadStep
    split
    · rename_i hbne
      exact objInsert_no_website obj f.name _ (by simpa using hbne) h
    · exact h

/-- The payload sent to the endpoint never carries the key website. -/
lemma buildPayload_no_website (fields : List Field) :
    "website" ∉ (buildPayload fields).map Prod.fst := by
  exact foldl_payload_no_website fields [] (by simp)

/-- The JavaScript remainder equals the mathematical remainder on nonnegative
operands with positive divisor. -/
lemma jsMod_pos (a N : Int) (hN : 0 < N) (ha : 0 ≤ a) :
    jsMod a N = some (a % N) := by
  unfold jsMod
  rw [if_neg (by omega), Int.tmod_eq_emod ha (le_of_lt hN)]

/-- show on an in-range integer index activates that index. -/
lemma showSlide_ok (s : SliderState) (j : Int) (h0 : 0 ≤ j)
    (h1 : j < (s.testimonials.length : Int)) :
    showSlide s (some j) = Except.ok (activatedAt s j) := by
  have h : ¬(j < 0 ∨ (s.testimonials.length : Int) ≤ j) := by omega
  simp [showSlide, h]

/-- Activation preserves the number of slides. -/
lemma activatedAt_length (s : SliderState) (i : Int) :
    (activatedAt s i).testimonials.length = s.testimonials.length := by
  simp [activatedAt]

/-- next on a nonempty slider with nonnegative index succeeds and lands on
the incremented index modulo the slide count. -/
lemma next_ok (s : SliderState) (hN : 0 < s.testimonials.length)
    (hc : 0 ≤ s.currentIndex) :
    next s = Except.ok
      (activatedAt s ((s.currentIndex + 1) % (s.testimonials.length : Int))) := by
  have hNpos : (0 : Int) < (s.testimonials.length : Int) := by exact_mod_cast hN
  rw [next, jsMod_pos _ _ hNpos (by omega)]
  exact showSlide_ok s _ (Int.emod_nonneg _ (by omega)) (Int.emod_lt_of_pos _ hNpos)

/-- prev on a nonempty slider with nonnegative index succeeds and lands on
the decremented index modulo the slide count. -/
lemma prev_ok (s : SliderState) (hN : 0 < s.testimonials.length)
    (hc : 0 ≤ s.currentIndex) :
    prev s = Except.ok
      (activatedAt s ((s.currentIndex - 1 + (s.testimonials.length : Int))
        % (s.testimonials.length : Int))) := by
  have hNpos : (0 : Int) < (s.testimonials.length : Int) := by exact_mod_cast hN
  rw [prev, jsMod_pos _ _ hNpos (by omega)]
  exact showSlide_ok s _ (Int.emod_nonneg _ (by omega)) (Int.emod_lt_of_pos _ hNpos)

/-- Adding the modulus and reducing is the identity on canonical residues. -/
lemma emod_add_self_eq (c N : Int) (h0 : 0 ≤ c) (h1 : c < N) :
    (c + N) % N = c := by
  rw [show c + N = c + N * 1 by ring, Int.add_mul_emod_self_left,
    Int.emod_eq_of_lt h0 h1]

/-- Stepping forward then backward returns to a canonical residue. -/
lemma emod_up_down (c N : Int) (h0 : 0 ≤ c) (h1 : c < N) :
    ((c + 1) % N - 1 + N) % N = c := by
  rw [show (c + 1) % N - 1 + N = (c + 1) % N + (N - 1) by ring,
    Int.emod_add_emod, show c + 1 + (N - 1) = c + N by ring,
    emod_add_self_eq c N h0 h1]

/-- Stepping backward then forward returns to a canonical residue. -/
lemma emod_down_up (c N : Int) (h0 : 0 ≤ c) (h1 : c < N) :
    ((c - 1 + N) % N + 1) % N = c := by
  rw [Int.emod_add_emod, show c - 1 + N + 1 = c + N by ring,
    emod_add_self_eq c N h0 h1]

/-- Iterating next k times from a valid index succeeds and advances the
index by k modulo the slide count, preserving the slide count. -/
lemma nextN_ok (k : Nat) (s : SliderState) (hN : 0 < s.testimonials.length)
    (hc0 : 0 ≤ s.currentIndex)
    (hc1 : s.currentIndex < (s.testimonials.length : Int)) :
    ∃ s', nextN k s = Except.ok s' ∧
      s'.testimonials.length = s.testimonials.length ∧
      s'.currentIndex =
        (s.currentIndex + (k : Int)) % (s.testimonials.length : Int) := by
  induction k generalizing s with
  | zero =>
    refine ⟨s, rfl, rfl, ?_⟩
    simp [Int.emod_eq_of_lt hc0 hc1]
  | succ k ih =>
    have hNpos : (0 : Int) < (s.testimonials.length : Int) := by exact_mod_cast hN
    set j := (s.currentIndex + 1) % (s.testimonials.length : Int) with hj
    have hstep := next_ok s hN hc0
    have hlen := activatedAt_length s j
    obtain ⟨s', h1, h2, h3⟩ := ih (activatedAt s j)
      (by rw [hlen]; exact hN)
      (Int.emod_nonneg _ (by omega))
      (by rw [hlen]; exact Int.emod_lt_of_pos _ hNpos)
    refine ⟨s', ?_, ?_, ?_⟩
    · simp only [nextN]
      rw [hstep]
      exact h1
    · rw [h2, hlen]
    · rw [h3, hlen]
      have hcur : (activatedAt s j).currentIndex = j := rfl
      rw [hcur, hj, Int.emod_add_emod]
      congr 1
      push_cast
      ring

/-! Claim theorems. -/

/-- C1 counterexample: on the name field value "1" both name checks fire
(trimmed length below 2 and a digit present), yet the message validateField
retains is the digit message, not the length message the claim predicts: the
second assignment to errorMessage overwrites the first. -/
theorem name_both_checks_digit_message_cex :
    (jsTrim (Field.mk "name" "text" true "1").value).length < 2 ∧
    containsDigit (jsTrim (Field.mk "name" "text" true "1").value) = true ∧
    validateField (Field.mk "name" "text" true "1") =
      (false, "Name should not contain numbers") ∧
    ("Name should not contain numbers" : String) ≠
      "Name must be at least 2 characters" := by
  refine ⟨by decide, by decide, by decide, by decide⟩

/-- C1 amended: in name-field validation (kind text, name attribute name,
nonempty trimmed value), when both the length-below-2 check and the
contains-a-digit check fail, the error message retained is the one from the
digit check: the last check to fire wins, each later failing check
overwriting the earlier message. -/
theorem name_checks_last_wins (f : Field)
    (h1 : f.type = "text") (h2 : f.name = "name")
    (h3 : jsTrim f.value ≠ "") (h4 : (jsTrim f.value).length < 2)
    (h5 : containsDigit (jsTrim f.value) = true) :
    validateField f = (false, "Name should not contain numbers") := by
  simp [validateField, h1, h2, h3, h4, h5]

/-- C1 witness: the amended theorem applied to the concrete field value 7. -/
theorem name_checks_last_wins_witness :
    (Field.mk "name" "text" false "7").type = "text" ∧
    (Field.mk "name" "text" false "7").name = "name" ∧
    jsTrim (Field.mk "name" "text" false "7").value ≠ "" ∧
    (jsTrim (Field.mk "name" "text" false "7").value).length < 2 ∧
    containsDigit (jsTrim (Field.mk "name" "text" false "7").value) = true ∧
    validateField (Field.mk "name" "text" false "7") =
      (false, "Name should not contain numbers") :=
  ⟨rfl, rfl, by decide, by decide, by decide,
    name_checks_last_wins (Field.mk "name" "text" false "7") rfl rfl
      (by decide) (by decide) (by decide)⟩

/-- C2 counterexample: a non-required email field holding a value that
violates the email format fails validateField, yet validateForm on a form
consisting of that field alone returns valid, because validateForm queries
only controls carrying the required attribute. This refutes the claim that
the form is invalid whenever a non-required field with a value violates its
kind constraint. -/
theorem optional_field_not_checked_cex :
    (Field.mk "email" "email" false "not-an-email").required = false ∧
    (validateField (Field.mk "email" "email" false "not-an-email")).fst
      = false ∧
    validateForm [Field.mk "email" "email" false "not-an-email"] = true := by
  refine ⟨rfl, by decide, by decide⟩

/-- C2 amended: full-form validation evaluates exactly the fields flagged
required: validateForm equals the conjunction of validateField over the
required fields, so a non-required field never affects it. Kind constraints
on non-required fields are enforced only by the per-field validation that
runs on blur: validateField fails on any email-kind field whose nonempty
trimmed value violates the email pattern, regardless of the required flag. -/
theorem validateForm_required_only (fields : List Field) (g : Field)
    (hg : g.type = "email") (hne : jsTrim g.value ≠ "")
    (hbad : emailRegexTest (jsTrim g.value) = false) :
    validateForm fields =
      ((fields.filter fun f => f.required).all fun f => (validateField f).fst) ∧
    (validateField g).fst = false := by
  refine ⟨validateForm_eq_all fields, ?_⟩
  simp [validateField, hg, hne, hbad]

/-- C2 witness: the amended theorem applied to a one-required-field form and
the concrete invalid optional email field. -/
theorem validateForm_required_only_witness :
    (Field.mk "email" "email" false "bad@").type = "email" ∧
    jsTrim (Field.mk "email" "email" false "bad@").value ≠ "" ∧
    emailRegexTest (jsTrim (Field.mk "email" "email" false "bad@").value)
      = false ∧
    (validateForm [Field.mk "name" "text" true "Al"] =
      ((([Field.mk "name" "text" true "Al"].filter fun f => f.required).all
        fun f => (validateField f).fst)) ∧
      (validateField (Field.mk "email" "email" false "bad@")).fst = false) :=
  ⟨rfl, by decide, by decide,
    validateForm_required_only [Field.mk "name" "text" true "Al"]
      (Field.mk "email" "email" false "bad@") rfl (by decide) (by decide)⟩

/-- C3 counterexample: on an empty carousel, next and prev are not silent
no-ops: the remainder by zero yields NaN, NaN passes both guards of show,
and the slide lookup at NaN throws (the error value carries the state at the
throw); okIndex is none rather than the unchanged index. -/
theorem empty_carousel_next_prev_throw_cex :
    (SliderState.mk [] [] 0).testimonials.length = 0 ∧
    next (SliderState.mk [] [] 0) =
      Except.error (SliderState.mk [] [] 0) ∧
    prev (SliderState.mk [] [] 0) =
      Except.error (SliderState.mk [] [] 0) ∧
    okIndex (next (SliderState.mk [] [] 0)) = none := by
  refine ⟨rfl, rfl, rfl, rfl⟩

/-- C3 amended: show with an integer index outside the interval from 0 to N
(which at N equal 0 is every integer index) is a no-op that surfaces no
error, leaving currentIndex and every active marking unchanged; next and
prev on an empty carousel, however, are not no-ops: the remainder by zero
produces NaN and the slide lookup throws. They are unreachable in the
program at N equal 0, since init returns before registering any handler or
starting autoplay. -/
theorem show_out_of_range_noop (s : SliderState) (i : Int)
    (h : i < 0 ∨ (s.testimonials.length : Int) ≤ i) :
    showSlide s (some i) = Except.ok s ∧
    (s.testimonials.length = 0 →
      next s = Except.error (clearedActive s) ∧
      prev s = Except.error (clearedActive s)) := by
  constructor
  · simp [showSlide, h]
  · intro h0
    constructor
    · simp [next, jsMod, h0, showSlide]
    · simp [prev, jsMod, h0, showSlide]

/-- C3 witness: the amended theorem applied to the empty carousel and the
out-of-range index 5. -/
theorem show_out_of_range_noop_witness :
    ((5 : Int) < 0 ∨
      ((SliderState.mk [] [] 0).testimonials.length : Int) ≤ 5) ∧
    (showSlide (SliderState.mk [] [] 0) (some 5) =
        Except.ok (SliderState.mk [] [] 0) ∧
      ((SliderState.mk [] [] 0).testimonials.length = 0 →
        next (SliderState.mk [] [] 0) =
          Except.error (clearedActive (SliderState.mk [] [] 0)) ∧
        prev (SliderState.mk [] [] 0) =
          Except.error (clearedActive (SliderState.mk [] [] 0)))) :=
  ⟨Or.inr (by decide),
    show_out_of_range_noop (SliderState.mk [] [] 0) 5 (Or.inr (by decide))⟩

/-- C4: whenever the honeypot check fires (the first control named website
has a nonempty value), the pipeline shows the fake success notification,
resets the form, and terminates with no fetch dispatched and lastSubmit
unchanged. -/
theorem honeypot_fake_success (fields : List Field)
    (tracker now minDelay : Nat) (h : honeypotFilled fields = true) :
    handleSubmit fields tracker now minDelay =
      { notification := some ("Message sent successfully!", "success"),
        fetched := none, reset := true, lastSubmit := tracker } := by
  simp [handleSubmit, h]

/-- C4 witness: the theorem applied to a form whose honeypot field holds
the value spam. -/
theorem honeypot_fake_success_witness :
    honeypotFilled [Field.mk "website" "text" false "spam"] = true ∧
    handleSubmit [Field.mk "website" "text" false "spam"] 7 100 5000 =
      { notification := some ("Message sent successfully!", "success"),
        fetched := none, reset := true, lastSubmit := 7 } :=
  ⟨by decide,
    honeypot_fake_success [Field.mk "website" "text" false "spam"] 7 100 5000
      (by decide)⟩

/-- C5: for an attempt that passes the honeypot and validation checks, if it
arrives within minDelay of the tracked lastSubmit, the pipeline shows the
rate-limit error notification and terminates with no fetch and lastSubmit
unchanged; if the cooldown passes, lastSubmit is set to now and the payload
is dispatched — the update happens in the synchronous part, before and hence
independent of any remote outcome. -/
theorem rate_limit_branch (fields : List Field)
    (tracker now minDelay : Nat)
    (h1 : honeypotFilled fields = false) (h2 : validateForm fields = true) :
    (((now : Int) - (tracker : Int) < (minDelay : Int)) →
      handleSubmit fields tracker now minDelay =
        { notification := some ("Please wait before submitting again", "error"),
          fetched := none, reset := false, lastSubmit := tracker }) ∧
    (¬((now : Int) - (tracker : Int) < (minDelay : Int)) →
      (handleSubmit fields tracker now minDelay).lastSubmit = now ∧
      (handleSubmit fields tracker now minDelay).fetched =
        some (buildPayload fields)) := by
  constructor
  · intro hlt
    simp [handleSubmit, submitContactForm, h1, h2, hlt]
  · intro hge
    simp [handleSubmit, submitContactForm, h1, h2, hge]

/-- C5 witness: the first branch of the theorem applied to a valid form
submitted 1000 milliseconds after a previous accepted submission, under a
5000 millisecond cooldown. -/
theorem rate_limit_branch_witness :
    honeypotFilled [Field.mk "name" "text" true "Jon"] = false ∧
    validateForm [Field.mk "name" "text" true "Jon"] = true ∧
    ((1000 : Int) - (0 : Int) < (5000 : Int)) ∧
    handleSubmit [Field.mk "name" "text" true "Jon"] 0 1000 5000 =
      { notification := some ("Please wait before submitting again", "error"),
        fetched := none, reset := false, lastSubmit := 0 } :=
  ⟨by decide, by decide, by decide,
    (rate_limit_branch [Field.mk "name" "text" true "Jon"] 0 1000 5000
      (by decide) (by decide)).1 (by decide)⟩

/-- C6: for every slider with at least one slide and a valid current index,
applying next exactly N times succeeds and returns currentIndex to its
original value. -/
theorem next_cycles (s : SliderState)
    (h1 : 1 ≤ s.testimonials.length)
    (h2 : 0 ≤ s.currentIndex)
    (h3 : s.currentIndex < (s.testimonials.length : Int)) :
    okIndex (nextN s.testimonials.length s) = some s.currentIndex := by
  obtain ⟨s', hs', _, hidx⟩ := nextN_ok s.testimonials.length s h1 h2 h3
  rw [hs']
  show some s'.currentIndex = some s.currentIndex
  rw [hidx, emod_add_self_eq s.currentIndex _ h2 h3]

/-- C6 witness: the theorem applied to a three-slide carousel starting at
index 1. -/
theorem next_cycles_witness :
    (1 ≤ (SliderState.mk [false, false, false] [false] 1).testimonials.length ∧
      (0 : Int) ≤ (SliderState.mk [false, false, false] [false] 1).currentIndex ∧
      (SliderState.mk [false, false, false] [false] 1).currentIndex <
        ((SliderState.mk [false, false, false] [false] 1).testimonials.length
          : Int)) ∧
    okIndex (nextN
      (SliderState.mk [false, false, false] [false] 1).testimonials.length
      (SliderState.mk [false, false, false] [false] 1)) = some 1 :=
  ⟨⟨by decide, by decide, by decide⟩,
    next_cycles (SliderState.mk [false, false, false] [false] 1)
      (by decide) (by decide) (by decide)⟩

/-- C7: for every slider with at least one slide and a valid current index,
prev followed by next and next followed by prev each restore currentIndex,
and prev from index 0 lands on N minus 1, the negative intermediate value
being compensated by adding N before the remainder. -/
theorem prev_next_inverse (s : SliderState)
    (h1 : 1 ≤ s.testimonials.length)
    (h2 : 0 ≤ s.currentIndex)
    (h3 : s.currentIndex < (s.testimonials.length : Int)) :
    okIndex (andThen (next s) prev) = some s.currentIndex ∧
    okIndex (andThen (prev s) next) = some s.currentIndex ∧
    (s.currentIndex = 0 →
      okIndex (prev s) = some ((s.testimonials.length : Int) - 1)) := by
  have hNpos : (0 : Int) < (s.testimonials.length : Int) := by exact_mod_cast h1
  refine ⟨?_, ?_, ?_⟩
  · rw [next_ok s h1 h2]
    show okIndex (prev (activatedAt s
      ((s.currentIndex + 1) % (s.testimonials.length : Int)))) = _
    rw [prev_ok _ (by rw [activatedAt_length]; exact h1)
      (Int.emod_nonneg _ (by omega))]
    show some _ = some s.currentIndex
    rw [activatedAt_length]
    exact congrArg some (emod_up_down s.currentIndex _ h2 h3)
  · rw [prev_ok s h1 h2]
    show okIndex (next (activatedAt s
      ((s.currentIndex - 1 + (s.testimonials.length : Int))
        % (s.testimonials.length : Int)))) = _
    rw [next_ok _ (by rw [activatedAt_length]; exact h1)
      (Int.emod_nonneg _ (by omega))]
    show some _ = some s.currentIndex
    rw [activatedAt_length]
    exact congrArg some (emod_down_up s.currentIndex _ h2 h3)
  · intro h0
    rw [prev_ok s h1 h2, h0]
    show some _ = some ((s.testimonials.length : Int) - 1)
    refine congrArg some ?_
    rw [show (0 : Int) - 1 + (s.testimonials.length : Int)
        = (s.testimonials.length : Int) - 1 by ring]
    exact Int.emod_eq_of_lt (by omega) (by omega)

/-- C7 witness: the theorem applied to a two-slide carousel at index 0,
where prev lands on index 1. -/
theorem prev_next_inverse_witness :
    (1 ≤ (SliderState.mk [false, false] [] 0).testimonials.length ∧
      (0 : Int) ≤ (SliderState.mk [false, false] [] 0).currentIndex ∧
      (SliderState.mk [false, false] [] 0).currentIndex <
        ((SliderState.mk [false, false] [] 0).testimonials.length : Int)) ∧
    (okIndex (andThen (next (SliderState.mk [false, false] [] 0)) prev)
        = some 0 ∧
      okIndex (andThen (prev (SliderState.mk [false, false] [] 0)) next)
        = some 0 ∧
      ((SliderState.mk [false, false] [] 0).currentIndex = 0 →
        okIndex (prev (SliderState.mk [false, false] [] 0)) =
          some (((SliderState.mk [false, false] [] 0).testimonials.length
            : Int) - 1))) :=
  ⟨⟨by decide, by decide, by decide⟩,
    prev_next_inverse (SliderState.mk [false, false] [] 0)
      (by decide) (by decide) (by decide)⟩

/-- C8: under the invariant tying this.interval to the scheduled timers,
startAutoplay preserves the invariant and leaves exactly one scheduled
autoplay timer (starting while already playing does not leak a second one),
starting is the same as stopping first and then starting (the cancellation
always precedes the rescheduling), and stopAutoplay preserves the invariant,
leaves at most one timer, and is idempotent. -/
theorem autoplay_single_timer (sw : AutoplayState × TimerWorld)
    (h : timerInv sw) :
    timerInv (startAutoplay sw) ∧
    (startAutoplay sw).snd.active.length = 1 ∧
    startAutoplay sw = startAutoplay (stopAutoplay sw) ∧
    timerInv (stopAutoplay sw) ∧
    (stopAutoplay sw).snd.active.length ≤ 1 ∧
    stopAutoplay (stopAutoplay sw) = stopAutoplay sw := by
  obtain ⟨s, w⟩ := sw
  obtain ⟨h1, h2⟩ := h
  cases hi : s.interval with
  | none =>
    have hact : w.active = [] := by simpa [hi] using h2
    refine ⟨⟨?_, ?_⟩, ?_, ?_, ⟨?_, ?_⟩, ?_, ?_⟩ <;>
      simp [timerInv, startAutoplay, stopAutoplay, hi, hact]
  | some id =>
    have hact : w.active = [id] := by simpa [hi] using h2
    have hlt : id < w.nextId := h1 id (by simp [hact])
    refine ⟨⟨?_, ?_⟩, ?_, ?_, ⟨?_, ?_⟩, ?_, ?_⟩ <;>
      simp [timerInv, startAutoplay, stopAutoplay, hi, hact]

/-- C8 witness: the theorem applied to a playing slider holding timer 0 in a
world whose next fresh id is 1. -/
theorem autoplay_single_timer_witness :
    timerInv (AutoplayState.mk (some 0), TimerWorld.mk 1 [0]) ∧
    (timerInv (startAutoplay (AutoplayState.mk (some 0), TimerWorld.mk 1 [0])) ∧
      (startAutoplay
        (AutoplayState.mk (some 0), TimerWorld.mk 1 [0])).snd.active.length
        = 1 ∧
      startAutoplay (AutoplayState.mk (some 0), TimerWorld.mk 1 [0]) =
        startAutoplay
          (stopAutoplay (AutoplayState.mk (some 0), TimerWorld.mk 1 [0])) ∧
      timerInv (stopAutoplay (AutoplayState.mk (some 0), TimerWorld.mk 1 [0])) ∧
      (stopAutoplay
        (AutoplayState.mk (some 0), TimerWorld.mk 1 [0])).snd.active.length
        ≤ 1 ∧
      stopAutoplay
          (stopAutoplay (AutoplayState.mk (some 0), TimerWorld.mk 1 [0])) =
        stopAutoplay (AutoplayState.mk (some 0), TimerWorld.mk 1 [0])) :=
  ⟨⟨by decide, by decide⟩,
    autoplay_single_timer (AutoplayState.mk (some 0), TimerWorld.mk 1 [0])
      ⟨by decide, by decide⟩⟩

/-- C9: for every dispatched attempt, whatever the fetch outcome — ok
response, non-ok response, or network failure — the finally block re-enables
the submit control with its original label and opacity restored and removes
every residual field-error display; on the ok outcome the form is also
reset. -/
theorem resolve_cleanup_unconditional (originalText : String)
    (errs : List String) (o : FetchOutcome) :
    (resolveSubmit originalText errs o).button =
      ButtonState.mk false originalText "1" ∧
    (resolveSubmit originalText errs o).fieldErrors = [] ∧
    (resolveSubmit originalText errs FetchOutcome.ok).reset = true := by
  cases o <;> simp [resolveSubmit]

/-- C10 counterexample: with two controls named website — the first empty,
the second holding the value bot — the submission with a nonempty website
field is dispatched to the endpoint rather than taking the bot path, because
querySelector inspects only the first match; so not every nonempty field
named website triggers the bot path. -/
theorem second_website_field_dispatched_cex :
    (Field.mk "website" "text" false "bot").name = "website" ∧
    (Field.mk "website" "text" false "bot").value ≠ "" ∧
    (handleSubmit
      [Field.mk "website" "text" false "", Field.mk "website" "text" false "bot"]
      0 100000 5000).fetched = some [] ∧
    (handleSubmit
      [Field.mk "website" "text" false "", Field.mk "website" "text" false "bot"]
      0 100000 5000).notification = none := by
  refine ⟨rfl, by decide, by decide, by decide⟩

/-- C10 amended: the honeypot lookup is hard-coded to the first form control
named website: the bot path (fake success, no dispatch) fires exactly on its
nonempty value, a later control of that name being ignored by the check; and
the key website never appears in the payload sent to the endpoint, whether
the fields named website are empty or not. -/
theorem first_website_field_policy (fields : List Field)
    (tracker now minDelay : Nat) (hp : Field)
    (hfind : fields.find? (fun f => f.name == "website") = some hp) :
    (hp.value ≠ "" →
      handleSubmit fields tracker now minDelay =
        { notification := some ("Message sent successfully!", "success"),
          fetched := none, reset := true, lastSubmit := tracker }) ∧
    "website" ∉ (buildPayload fields).map Prod.fst := by
  refine ⟨?_, buildPayload_no_website fields⟩
  intro hv
  have hfilled : honeypotFilled fields = true := by
    simp [honeypotFilled, hfind, hv]
  simp [handleSubmit, hfilled]

/-- C10 witness: the amended theorem applied to a form whose first (and
only) website control holds the value gotcha. -/
theorem first_website_field_policy_witness :
    ([Field.mk "website" "text" false "gotcha",
        Field.mk "name" "text" true "Ann"].find?
      (fun f => f.name == "website")
      = some (Field.mk "website" "text" false "gotcha")) ∧
    (Field.mk "website" "text" false "gotcha").value ≠ "" ∧
    handleSubmit
        [Field.mk "website" "text" false "gotcha",
          Field.mk "name" "text" true "Ann"] 3 9 5 =
      { notification := some ("Message sent successfully!", "success"),
        fetched := none, reset := true, lastSubmit := 3 } ∧
    "website" ∉ (buildPayload
      [Field.mk "website" "text" false "gotcha",
        Field.mk "name" "text" true "Ann"]).map Prod.fst :=
  ⟨by decide, by decide,
    (first_website_field_policy
      [Field.mk "website" "text" false "gotcha",
        Field.mk "name" "text" true "Ann"] 3 9 5
      (Field.mk "website" "text" false "gotcha") (by decide)).1 (by decide),
    (first_website_field_policy
      [Field.mk "website" "text" false "gotcha",
        Field.mk "name" "text" true "Ann"] 3 9 5
      (Field.mk "website" "text" false "gotcha") (by decide)).2⟩

end Script
